import Mathlib

/-!
Shallow embedding of the SafeTrack tracking-session lifecycle and
location-append log, translated from `src/app.py` and `src/sms_service.py`.

Timestamps are modelled as natural numbers (seconds); `datetime.utcnow()`
becomes an explicit `now : Nat` parameter threaded through the operations.
Coordinates are modelled as rationals (Python floats carry decimal-degree
values; no arithmetic is performed on them by the code under study, only
storage and retrieval, so exact rationals are a faithful carrier).
Database commits that may fail (`session.commit()` inside `try/except`)
are modelled by an explicit `commitOk : Bool` parameter: when it is
`false` the operation takes its `except` branch, rolls back, and the
store is returned unchanged.

The ORM model module `database.py` is not part of the sources; the column
defaults it supplies (`status = pending`, `created_at = now`,
`timestamp = now`, id generation) are modelled from the spec where noted.
-/

namespace SafeTrack

/-- Status enum of a tracking session. The stored column is a string in the
Python source; the three values compared against in `src/app.py`
(`pending`, `active`, `expired`) are modelled as an enum. -/
inductive Status where
  | pending
  | active
  | expired
deriving DecidableEq, Repr

/-- TrackingSession row, from the fields used by `src/app.py`
(`id`, `sender_phone`, `recipient_phone`, `message`, `status`,
`created_at`, `expires_at`). -/
structure TrackingSession where
  id : String
  sender_phone : String
  recipient_phone : String
  message : String
  status : Status
  created_at : Nat
  expires_at : Nat
deriving DecidableEq, Repr

/-- LocationUpdate row, from the fields used by `src/app.py`
(`session_id`, `latitude`, `longitude`, `accuracy`, `timestamp`). -/
structure LocationUpdate where
  session_id : String
  latitude : ℚ
  longitude : ℚ
  accuracy : Option ℚ
  timestamp : Nat
deriving DecidableEq, Repr

/-- The two-table database: all TrackingSession rows and all LocationUpdate
rows, each in insertion order. -/
structure Store where
  sessions : List TrackingSession
  locations : List LocationUpdate
deriving DecidableEq, Repr

/-- Timestamp order on location rows; `get_locations` sorts by it
(`order_by(LocationUpdate.timestamp.asc())` in `src/app.py`). -/
def tsLe (a b : LocationUpdate) : Prop :=
  a.timestamp ≤ b.timestamp

instance : DecidableRel tsLe := fun a b => Nat.decLe a.timestamp b.timestamp

instance : IsTotal LocationUpdate tsLe := ⟨fun a b => Nat.le_total a.timestamp b.timestamp⟩

instance : IsTrans LocationUpdate tsLe := ⟨fun _ _ _ => Nat.le_trans⟩

/-- Translation of `get_tracking_session` (src/app.py lines 80-86):
`query(TrackingSession).filter(id == tracking_id).first()`, i.e. the first
stored row whose id matches, or `None`. -/
def get_tracking_session (s : Store) (tracking_id : String) : Option TrackingSession :=
  s.sessions.find? (fun ts => ts.id == tracking_id)

/-- Translation of `get_locations` (src/app.py lines 88-97): all
LocationUpdate rows of the session, ordered by ascending timestamp. The
SQL sort is modelled by `insertionSort`, which sorts by `timestamp` and
keeps insertion order among equal timestamps. -/
def get_locations (s : Store) (tracking_id : String) : List LocationUpdate :=
  List.insertionSort tsLe (s.locations.filter (fun l => l.session_id == tracking_id))

/-- Translation of the status update in `save_location` (src/app.py lines
103-109): the fetched row is the first one whose id matches; if its status
is `pending` it is set to `active`, otherwise it is left alone. All other
rows are untouched. -/
def activateFirst (tracking_id : String) : List TrackingSession → List TrackingSession
  | [] => []
  | ts :: rest =>
    if ts.id == tracking_id then
      (if ts.status = Status.pending then { ts with status := Status.active } else ts) :: rest
    else
      ts :: activateFirst tracking_id rest

/-- Result dictionary of `save_location`: a `success` flag and an optional
`error` string. -/
structure SaveResult where
  success : Bool
  error : Option String
deriving DecidableEq, Repr

/-- Translation of `save_location` (src/app.py lines 99-127). Looks up the
session; unknown id returns the failure dictionary and leaves the store
alone. Otherwise the pending-to-active flip and the new LocationUpdate row
(with `timestamp = now`, the column default modelled from the spec:
`timestamp`: set at creation, immutable) are committed together; a failing
commit (`commitOk = false`) rolls both back. -/
def save_location (s : Store) (now : Nat) (commitOk : Bool) (tracking_id : String)
    (latitude longitude : ℚ) (accuracy : Option ℚ) : Store × SaveResult :=
  match s.sessions.find? (fun ts => ts.id == tracking_id) with
  | none => (s, ⟨false, some "Invalid tracking session"⟩)
  | some _ =>
    if commitOk then
      ({ sessions := activateFirst tracking_id s.sessions,
         locations := s.locations ++ [⟨tracking_id, latitude, longitude, accuracy, now⟩] },
       ⟨true, none⟩)
    else
      (s, ⟨false, some "commit failed"⟩)

/-- Configuration of the SMS service (src/sms_service.py lines 5-24):
the server URL and whether Twilio credentials are present. -/
structure SMSConfig where
  server_url : String
  is_configured : Bool
deriving DecidableEq, Repr

/-- Outcome of the external Twilio call `client.messages.create`: either a
message with its provider sid, or a raised exception with its message. -/
inductive DispatchOutcome where
  | delivered (sid : String)
  | failed (err : String)
deriving DecidableEq, Repr

/-- Result dictionary of `SMSService.send_tracking_request`. Each field is
an `Option`: `none` models a key absent from the returned Python dict, so
`dict.get(key, default)` becomes `Option.getD`. The `debug_url` field is
carried because `src/app.py` line 71 reads that key; no branch of
`src/sms_service.py` ever sets it. -/
structure SMSResult where
  success : Bool
  sms_sent : Bool
  error : Option String
  tracking_url : Option String
  message_sid : Option String
  message : Option String
  debug_url : Option String
deriving DecidableEq, Repr

/-- Shareable link construction (src/sms_service.py line 27 and src/app.py
lines 250 and 339): `f"{server_url}/?tracking_id={tracking_id}"`. -/
def buildTrackingUrl (server_url tracking_id : String) : String :=
  server_url ++ "/?tracking_id=" ++ tracking_id

/-- Translation of `SMSService.send_tracking_request`
(src/sms_service.py lines 26-60). The recipient and message only feed the
SMS body, which is outside the modelled state. -/
def sms_send_tracking_request (cfg : SMSConfig) (outcome : DispatchOutcome)
    (tracking_id : String) : SMSResult :=
  let tracking_url := buildTrackingUrl cfg.server_url tracking_id
  if cfg.is_configured then
    match outcome with
    | DispatchOutcome.delivered sid =>
      { success := true, sms_sent := true, error := none,
        tracking_url := some tracking_url, message_sid := some sid,
        message := none, debug_url := none }
    | DispatchOutcome.failed err =>
      { success := false, sms_sent := false, error := some err,
        tracking_url := some tracking_url, message_sid := none,
        message := none, debug_url := none }
  else
    { success := false, sms_sent := false, error := some "Twilio not configured",
      tracking_url := some tracking_url, message_sid := none,
      message := some "Manual sharing required - copy and send the URL",
      debug_url := none }

/-- Result dictionary of `send_tracking_request` in `src/app.py`; `none`
models an absent key. -/
structure SendResult where
  success : Bool
  tracking_id : Option String
  tracking_url : Option String
  sms_sent : Option Bool
  error : Option String
  debug_url : Option String
deriving DecidableEq, Repr

/-- Construction of the new TrackingSession row (src/app.py lines 40-45).
`expires_at = utcnow() + timedelta(hours=24)` is explicit in the source;
the remaining column defaults are modelled from the spec, `database.py`
being absent from the sources: `id` is an opaque unique identifier
generated at creation (here a caller-supplied fresh string), `status`
starts `pending`, `created_at` is set at creation to `now`. -/
def mkTrackingSession (now : Nat) (newId sender_phone recipient_phone message : String) :
    TrackingSession :=
  { id := newId, sender_phone := sender_phone, recipient_phone := recipient_phone,
    message := message, status := Status.pending,
    created_at := now, expires_at := now + 24 * 3600 }

/-- Translation of `send_tracking_request` (src/app.py lines 35-78).
A failing commit takes the `except` branch: rollback, store unchanged,
failure dictionary. On a successful commit the SMS call never raises
(every path of `src/sms_service.py` returns a dict), so the function
returns one of the two `success: True` dictionaries of lines 59-72:
with the tracking URL when SMS succeeded, else with `sms_sent: False`,
the error, and `sms_result.get('debug_url', '')`. -/
def send_tracking_request (s : Store) (now : Nat) (commitOk : Bool) (newId : String)
    (cfg : SMSConfig) (outcome : DispatchOutcome)
    (sender_phone recipient_phone custom_message : String) : Store × SendResult :=
  if commitOk then
    let ts := mkTrackingSession now newId sender_phone recipient_phone custom_message
    let s2 : Store := { s with sessions := s.sessions ++ [ts] }
    let sms_result := sms_send_tracking_request cfg outcome ts.id
    if sms_result.success then
      (s2, { success := true, tracking_id := some ts.id,
             tracking_url := some (sms_result.tracking_url.getD ""),
             sms_sent := none, error := none, debug_url := none })
    else
      (s2, { success := true, tracking_id := some ts.id, tracking_url := none,
             sms_sent := some false,
             error := some (sms_result.error.getD "Unknown error"),
             debug_url := some (sms_result.debug_url.getD "") })
  else
    (s, { success := false, tracking_id := none, tracking_url := none,
          sms_sent := none, error := some "commit failed", debug_url := none })

/-- The guard of the expired branch of `show_share_location_page`
(src/app.py lines 430-432): the page rejects the session exactly when its
stored status equals `expired`. -/
def share_page_rejects_expired (ts : TrackingSession) : Bool :=
  ts.status == Status.expired

/-- Modelled from the spec: `isExpired(session) → bool`, the pure read-time
expiry predicate `now > expires_at`. No function of the sources computes
this; the only expiry-like check in `src/app.py` is
`share_page_rejects_expired`. -/
def isExpired (now : Nat) (ts : TrackingSession) : Bool :=
  decide (ts.expires_at < now)

/-- Stored status of a session id, as `get_tracking_session` would report
it: `none` when no row matches. -/
def sessionStatus (s : Store) (tracking_id : String) : Option Status :=
  (get_tracking_session s tracking_id).map (fun ts => ts.status)

/-- Stored `created_at` of a session id, read through
`get_tracking_session`. -/
def sessionCreatedAt (s : Store) (tracking_id : String) : Option Nat :=
  (get_tracking_session s tracking_id).map (fun ts => ts.created_at)

/-- Stored `expires_at` of a session id, read through
`get_tracking_session`. -/
def sessionExpiresAt (s : Store) (tracking_id : String) : Option Nat :=
  (get_tracking_session s tracking_id).map (fun ts => ts.expires_at)

/-- Stores reachable from the empty database through the two mutating
operations of `src/app.py`, with arbitrary parameters and commit
outcomes. -/
inductive Reachable : Store → Prop where
  | empty : Reachable ⟨[], []⟩
  | create (s : Store) (now : Nat) (commitOk : Bool) (newId : String) (cfg : SMSConfig)
      (outcome : DispatchOutcome) (sp rp msg : String) :
      Reachable s →
      Reachable (send_tracking_request s now commitOk newId cfg outcome sp rp msg).1
  | append (s : Store) (now : Nat) (commitOk : Bool) (tracking_id : String)
      (lat lng : ℚ) (acc : Option ℚ) :
      Reachable s →
      Reachable (save_location s now commitOk tracking_id lat lng acc).1

/-- Characters of a list up to and after the first occurrence of `c`:
the pair (part before the first `c`, part after it). When `c` does not
occur the second component is empty. -/
def breakAtChar (c : Char) : List Char → List Char × List Char
  | [] => ([], [])
  | a :: rest =>
    if a = c then ([], rest)
    else
      let p := breakAtChar c rest
      (a :: p.1, p.2)

/-- Split a character list on a separator character. -/
def splitOnChar (c : Char) : List Char → List (List Char)
  | [] => [[]]
  | a :: rest =>
    match splitOnChar c rest with
    | [] => if a = c then [[], []] else [[a]]
    | h :: t => if a = c then [] :: h :: t else (a :: h) :: t

/-- Drop an expected leading character sequence, returning the remainder,
or `none` when the sequence does not lead. -/
def dropLeading : List Char → List Char → Option (List Char)
  | [], l => some l
  | _ :: _, [] => none
  | p :: ps, a :: as => if p = a then dropLeading ps as else none

/-- Value of one `key=value` query pair when the key is `tracking_id`. -/
def trackingIdValue (p : List Char) : Option (List Char) :=
  dropLeading "tracking_id=".data p

/-- First result of `f` over a list. -/
def firstSome {α β : Type} (f : α → Option β) : List α → Option β
  | [] => none
  | a :: rest =>
    match f a with
    | some b => some b
    | none => firstSome f rest

/-- Modelled from the spec: the recipient-facing surface parses
`tracking_id` from the query parameter of the shareable link. The source
delegates this to `st.experimental_get_query_params()` (library code, not
in src/); standard query-string semantics are modelled: the part after the
first `?` is split on `&` and the value of the `tracking_id` pair is
returned. -/
def parseTrackingId (url : String) : Option String :=
  (firstSome trackingIdValue (splitOnChar '&' (breakAtChar '?' url.data).2)).map
    (fun l => String.mk l)

/-!
Helper lemmas. `sessionUpd` is the per-row effect of the status update of
`save_location` on the row `first()` returns.
-/

/-- Per-row effect of the pending-to-active flip of `save_location` on the
row whose id matches; other rows are unchanged. -/
def sessionUpd (tracking_id : String) (ts : TrackingSession) : TrackingSession :=
  if ts.id == tracking_id then
    (if ts.status = Status.pending then { ts with status := Status.active } else ts)
  else ts

theorem sessionUpd_id (tracking_id : String) (ts : TrackingSession) :
    (sessionUpd tracking_id ts).id = ts.id := by
  unfold sessionUpd
  split <;> [skip; rfl]
  split <;> rfl

theorem sessionUpd_created_at (tracking_id : String) (ts : TrackingSession) :
    (sessionUpd tracking_id ts).created_at = ts.created_at := by
  unfold sessionUpd
  split <;> [skip; rfl]
  split <;> rfl

theorem sessionUpd_expires_at (tracking_id : String) (ts : TrackingSession) :
    (sessionUpd tracking_id ts).expires_at = ts.expires_at := by
  unfold sessionUpd
  split <;> [skip; rfl]
  split <;> rfl

theorem sessionUpd_of_ne (tid : String) (ts : TrackingSession) (h : ts.id ≠ tid) :
    sessionUpd tid ts = ts := by
  simp [sessionUpd, h]

theorem find?_map_sessionUpd_of_ne (tid tid' : String) (hne : tid' ≠ tid)
    (l : List TrackingSession) :
    (l.find? (fun ts => ts.id == tid')).map (sessionUpd tid)
      = l.find? (fun ts => ts.id == tid') := by
  cases hf : l.find? (fun ts => ts.id == tid') with
  | none => rfl
  | some ts =>
    have h3 : ts.id = tid' := by simpa using List.find?_some hf
    simp [sessionUpd_of_ne tid ts (h3 ▸ hne)]

theorem activateFirst_find? (tid tid' : String) (l : List TrackingSession) :
    (activateFirst tid l).find? (fun ts => ts.id == tid')
      = (l.find? (fun ts => ts.id == tid')).map (sessionUpd tid) := by
  induction l with
  | nil => rfl
  | cons a rest ih =>
    by_cases h1 : a.id = tid
    · have h1b : (a.id == tid) = true := by simpa using h1
      by_cases hs : a.status = Status.pending
      · have hred : activateFirst tid (a :: rest)
            = { a with status := Status.active } :: rest := by
          simp [activateFirst, h1b, hs]
        rw [hred]
        by_cases h2 : a.id = tid'
        · rw [List.find?_cons_of_pos (p := fun ts : TrackingSession => ts.id == tid') _ (by simpa using h2),
            List.find?_cons_of_pos (p := fun ts : TrackingSession => ts.id == tid') _ (by simpa using h2)]
          simp [sessionUpd, h1b, hs]
        · have hne : tid' ≠ tid := fun h => h2 (h1.trans h.symm)
          rw [List.find?_cons_of_neg (p := fun ts : TrackingSession => ts.id == tid') _ (by simpa using h2),
            List.find?_cons_of_neg (p := fun ts : TrackingSession => ts.id == tid') _ (by simpa using h2)]
          exact (find?_map_sessionUpd_of_ne tid tid' hne rest).symm
      · have hred : activateFirst tid (a :: rest) = a :: rest := by
          simp [activateFirst, h1b, hs]
        rw [hred]
        by_cases h2 : a.id = tid'
        · rw [List.find?_cons_of_pos (p := fun ts : TrackingSession => ts.id == tid') _ (by simpa using h2)]
          simp [sessionUpd, h1b, hs]
        · rw [List.find?_cons_of_neg (p := fun ts : TrackingSession => ts.id == tid') _ (by simpa using h2)]
          exact (find?_map_sessionUpd_of_ne tid tid'
            (fun h => h2 (h1.trans h.symm)) rest).symm
    · have h1b : (a.id == tid) = false := by simpa using h1
      have hred : activateFirst tid (a :: rest) = a :: activateFirst tid rest := by
        simp [activateFirst, h1b]
      rw [hred]
      by_cases h2 : a.id = tid'
      · rw [List.find?_cons_of_pos (p := fun ts : TrackingSession => ts.id == tid') _ (by simpa using h2),
          List.find?_cons_of_pos (p := fun ts : TrackingSession => ts.id == tid') _ (by simpa using h2)]
        simp [sessionUpd_of_ne tid a h1]
      · rw [List.find?_cons_of_neg (p := fun ts : TrackingSession => ts.id == tid') _ (by simpa using h2),
          List.find?_cons_of_neg (p := fun ts : TrackingSession => ts.id == tid') _ (by simpa using h2)]
        exact ih

theorem mem_activateFirst {ts' : TrackingSession} (tid : String)
    (l : List TrackingSession) (h : ts' ∈ activateFirst tid l) :
    ts' ∈ l ∨ ∃ ts ∈ l, ts.status = Status.pending
      ∧ ts' = { ts with status := Status.active } := by
  induction l with
  | nil => simp [activateFirst] at h
  | cons a rest ih =>
    by_cases h1 : (a.id == tid) = true
    · simp only [activateFirst, h1, if_true] at h
      rcases List.mem_cons.mp h with h2 | h2
      · by_cases hs : a.status = Status.pending
        · right
          exact ⟨a, List.mem_cons_self a rest, hs, by simpa [hs] using h2⟩
        · left
          simp [hs] at h2
          simp [h2]
      · exact Or.inl (List.mem_cons_of_mem a h2)
    · simp only [activateFirst, h1, if_false] at h
      rcases List.mem_cons.mp h with h2 | h2
      · exact Or.inl (h2 ▸ List.mem_cons_self a rest)
      · rcases ih h2 with h3 | ⟨ts, hts, hp, he⟩
        · exact Or.inl (List.mem_cons_of_mem a h3)
        · exact Or.inr ⟨ts, List.mem_cons_of_mem a hts, hp, he⟩

theorem orderedInsert_append_one (a x : LocationUpdate) (m : List LocationUpdate)
    (h : tsLe a x) :
    List.orderedInsert tsLe a (m ++ [x]) = List.orderedInsert tsLe a m ++ [x] := by
  induction m with
  | nil => simp [List.orderedInsert, h]
  | cons b t ih =>
    by_cases hb : tsLe a b
    · simp [List.orderedInsert, hb]
    · simp [List.orderedInsert, hb, ih]

theorem insertionSort_append_one (l : List LocationUpdate) (x : LocationUpdate)
    (h : ∀ a ∈ l, tsLe a x) :
    List.insertionSort tsLe (l ++ [x]) = List.insertionSort tsLe l ++ [x] := by
  induction l with
  | nil => simp [List.insertionSort, List.orderedInsert]
  | cons a t ih =>
    have ht : ∀ b ∈ t, tsLe b x := fun b hb => h b (List.mem_cons_of_mem a hb)
    have ha : tsLe a x := h a (List.mem_cons_self a t)
    rw [List.cons_append]
    show List.orderedInsert tsLe a (List.insertionSort tsLe (t ++ [x]))
      = List.orderedInsert tsLe a (List.insertionSort tsLe t) ++ [x]
    rw [ih ht]
    exact orderedInsert_append_one a x _ ha

theorem get_locations_sorted (s : Store) (tracking_id : String) :
    List.Sorted tsLe (get_locations s tracking_id) :=
  List.sorted_insertionSort tsLe _

theorem save_location_reduce_some (s : Store) (now : Nat) (tracking_id : String)
    (ts : TrackingSession) (lat lng : ℚ) (acc : Option ℚ)
    (h : s.sessions.find? (fun t => t.id == tracking_id) = some ts) :
    save_location s now true tracking_id lat lng acc
      = ({ sessions := activateFirst tracking_id s.sessions,
           locations := s.locations ++ [⟨tracking_id, lat, lng, acc, now⟩] },
         ⟨true, none⟩) := by
  simp [save_location, h]

theorem save_location_reduce_fail (s : Store) (now : Nat) (tracking_id : String)
    (ts : TrackingSession) (lat lng : ℚ) (acc : Option ℚ)
    (h : s.sessions.find? (fun t => t.id == tracking_id) = some ts) :
    save_location s now false tracking_id lat lng acc
      = (s, ⟨false, some "commit failed"⟩) := by
  simp [save_location, h]

theorem save_location_reduce_none (s : Store) (now : Nat) (commitOk : Bool)
    (tracking_id : String) (lat lng : ℚ) (acc : Option ℚ)
    (h : s.sessions.find? (fun t => t.id == tracking_id) = none) :
    save_location s now commitOk tracking_id lat lng acc
      = (s, ⟨false, some "Invalid tracking session"⟩) := by
  simp [save_location, h]

theorem send_tracking_request_fst (s : Store) (now : Nat) (newId : String)
    (cfg : SMSConfig) (outcome : DispatchOutcome) (sp rp msg : String) :
    (send_tracking_request s now true newId cfg outcome sp rp msg).1
      = { s with sessions := s.sessions ++ [mkTrackingSession now newId sp rp msg] } := by
  simp only [send_tracking_request, if_true]
  split <;> rfl

theorem sortFilter_append (L : List LocationUpdate) (tid : String)
    (new : LocationUpdate) (hid : new.session_id = tid)
    (hclock : ∀ l ∈ L, l.session_id = tid → l.timestamp ≤ new.timestamp) :
    List.insertionSort tsLe ((L ++ [new]).filter (fun l => l.session_id == tid))
      = List.insertionSort tsLe (L.filter (fun l => l.session_id == tid)) ++ [new] := by
  rw [List.filter_append]
  have hone : List.filter (fun l => l.session_id == tid) [new] = [new] := by
    simp [hid]
  rw [hone]
  apply insertionSort_append_one
  intro a ha
  have hm := List.mem_filter.mp ha
  exact hclock a hm.1 (by simpa using hm.2)

/-!
Concrete fixtures used by the witness theorems.
-/

/-- Concrete store with one freshly created session. -/
def demoSession : TrackingSession := mkTrackingSession 0 "A1" "alice" "bob" "hi"

/-- Store holding only `demoSession`. -/
def demoStore : Store := ⟨[demoSession], []⟩

/-- Concrete session already in `active` status. -/
def demoActive : TrackingSession := { demoSession with id := "B2", status := Status.active }

/-- Store holding a pending and an active session. -/
def demoStore2 : Store := ⟨[demoSession, demoActive], []⟩

/-- Claim C1: for every existing session and every valid (latitude,
longitude) pair, `save_location` followed by `get_locations` returns that
pair in the last position of the returned sequence; the sequence is in
ascending timestamp order; and the append writes a new row at the end of
the location table without editing or removing any previously appended
LocationUpdate row. The clock hypothesis makes the arrival times
nondecreasing, which is how the source obtains timestamps from
`utcnow()`. -/
theorem C1_append_then_list (s : Store) (now : Nat) (tracking_id : String)
    (ts : TrackingSession) (lat lng : ℚ) (acc : Option ℚ)
    (hsess : get_tracking_session s tracking_id = some ts)
    (_hvalid : -90 ≤ lat ∧ lat ≤ 90 ∧ -180 ≤ lng ∧ lng ≤ 180)
    (hclock : ∀ l ∈ s.locations, l.session_id = tracking_id → l.timestamp ≤ now) :
    (save_location s now true tracking_id lat lng acc).2.success = true ∧
    get_locations (save_location s now true tracking_id lat lng acc).1 tracking_id
      = get_locations s tracking_id ++ [⟨tracking_id, lat, lng, acc, now⟩] ∧
    (get_locations (save_location s now true tracking_id lat lng acc).1
        tracking_id).getLast? = some ⟨tracking_id, lat, lng, acc, now⟩ ∧
    List.Sorted tsLe
      (get_locations (save_location s now true tracking_id lat lng acc).1 tracking_id) ∧
    (save_location s now true tracking_id lat lng acc).1.locations
      = s.locations ++ [⟨tracking_id, lat, lng, acc, now⟩] := by
  have hs' : s.sessions.find? (fun t => t.id == tracking_id) = some ts := hsess
  rw [save_location_reduce_some s now tracking_id ts lat lng acc hs']
  have hloc : get_locations
      ({ sessions := activateFirst tracking_id s.sessions,
         locations := s.locations ++ [⟨tracking_id, lat, lng, acc, now⟩] } : Store)
      tracking_id
      = get_locations s tracking_id ++ [⟨tracking_id, lat, lng, acc, now⟩] :=
    sortFilter_append s.locations tracking_id ⟨tracking_id, lat, lng, acc, now⟩ rfl hclock
  refine ⟨rfl, hloc, ?_, get_locations_sorted _ _, rfl⟩
  rw [hloc]
  exact List.getLast?_concat _

/-- Witness for C1 at a concrete store: hypotheses hold at the input and
the appended pair is the whole (hence last) returned history. -/
theorem C1_append_then_list_witness :
    get_tracking_session demoStore "A1" = some demoSession ∧
    (-90 ≤ (1 : ℚ)/2 ∧ (1 : ℚ)/2 ≤ 90 ∧ -180 ≤ (3 : ℚ)/2 ∧ (3 : ℚ)/2 ≤ 180) ∧
    (∀ l ∈ demoStore.locations, l.session_id = "A1" → l.timestamp ≤ 5) ∧
    get_locations (save_location demoStore 5 true "A1" (1/2) (3/2) none).1 "A1"
      = [⟨"A1", 1/2, 3/2, none, 5⟩] ∧
    (save_location demoStore 5 true "A1" (1/2) (3/2) none).2.success = true := by
  have h := C1_append_then_list demoStore 5 "A1" demoSession (1/2) (3/2) none
    (by decide) (by norm_num) (by decide)
  refine ⟨by decide, by norm_num, by decide, ?_, h.1⟩
  rw [h.2.1]
  rfl

/-- Claim C2: on a session whose stored status is `pending`, a successful
`save_location` flips the status to `active` in the same write as the new
LocationUpdate row, a subsequent `get_tracking_session` returns the
session with status `active`, and when the commit fails neither the row
nor the flip persists. -/
theorem C2_pending_flip (s : Store) (now : Nat) (tracking_id : String)
    (ts : TrackingSession) (lat lng : ℚ) (acc : Option ℚ)
    (hsess : get_tracking_session s tracking_id = some ts)
    (hp : ts.status = Status.pending) :
    (save_location s now true tracking_id lat lng acc).2.success = true ∧
    get_tracking_session (save_location s now true tracking_id lat lng acc).1 tracking_id
      = some { ts with status := Status.active } ∧
    (save_location s now true tracking_id lat lng acc).1.locations
      = s.locations ++ [⟨tracking_id, lat, lng, acc, now⟩] ∧
    (save_location s now false tracking_id lat lng acc).1 = s := by
  have hs' : s.sessions.find? (fun t => t.id == tracking_id) = some ts := hsess
  have hid : (ts.id == tracking_id) = true :=
    List.find?_some (p := fun t : TrackingSession => t.id == tracking_id) hs'
  refine ⟨?_, ?_, ?_, ?_⟩
  · rw [save_location_reduce_some s now tracking_id ts lat lng acc hs']
  · rw [save_location_reduce_some s now tracking_id ts lat lng acc hs']
    show (activateFirst tracking_id s.sessions).find? (fun t => t.id == tracking_id)
      = some { ts with status := Status.active }
    rw [activateFirst_find?, hs']
    simp [sessionUpd, hid, hp]
  · rw [save_location_reduce_some s now tracking_id ts lat lng acc hs']
  · rw [save_location_reduce_fail s now tracking_id ts lat lng acc hs']

/-- Witness for C2 at a concrete pending session. -/
theorem C2_pending_flip_witness :
    get_tracking_session demoStore "A1" = some demoSession ∧
    demoSession.status = Status.pending ∧
    get_tracking_session (save_location demoStore 7 true "A1" 1 2 (some 3)).1 "A1"
      = some { demoSession with status := Status.active } ∧
    (save_location demoStore 7 false "A1" 1 2 (some 3)).1 = demoStore :=
  ⟨by decide, rfl,
    (C2_pending_flip demoStore 7 "A1" demoSession 1 2 (some 3) (by decide) rfl).2.1,
    (C2_pending_flip demoStore 7 "A1" demoSession 1 2 (some 3) (by decide) rfl).2.2.2⟩

/-- Claim C6: `get_tracking_session` on an id with no stored record
returns `none` (the NotFound signal, `first()` returning `None`), never a
placeholder; on an id with a record it returns exactly a stored record
with that id. The function is read-only by construction: it takes the
store and returns only the optional row. -/
theorem C6_get_unknown (s : Store) (tid : String) :
    (get_tracking_session s tid = none ↔ ∀ ts ∈ s.sessions, ts.id ≠ tid) ∧
    ∀ ts, get_tracking_session s tid = some ts → ts ∈ s.sessions ∧ ts.id = tid := by
  constructor
  · show s.sessions.find? (fun ts => ts.id == tid) = none ↔ _
    rw [List.find?_eq_none]
    constructor
    · intro h ts hm
      simpa using h ts hm
    · intro h ts hm
      simpa using h ts hm
  · intro ts h
    exact ⟨List.mem_of_find?_eq_some h, by simpa using List.find?_some h⟩

/-- Witness for C6: an unknown id yields `none` on a concrete store; a
known id yields the stored row. -/
theorem C6_get_unknown_witness :
    get_tracking_session demoStore "zzz" = none ∧
    demoSession ∈ demoStore.sessions ∧ demoSession.id = "A1" :=
  ⟨(C6_get_unknown demoStore "zzz").1.mpr (by decide),
    (C6_get_unknown demoStore "A1").2 demoSession (by decide)⟩

/-- Claim C7: `save_location` on a session id that resolves to no session
returns the failure dictionary and leaves the whole store unchanged: no
LocationUpdate row is added and no session status is modified. -/
theorem C7_append_unknown (s : Store) (now : Nat) (commitOk : Bool) (tid : String)
    (lat lng : ℚ) (acc : Option ℚ)
    (h : ∀ ts ∈ s.sessions, ts.id ≠ tid) :
    save_location s now commitOk tid lat lng acc
      = (s, ⟨false, some "Invalid tracking session"⟩) := by
  apply save_location_reduce_none
  rw [List.find?_eq_none]
  intro ts hm
  simpa using h ts hm

/-- Witness for C7 at a concrete store and unknown id. -/
theorem C7_append_unknown_witness :
    (∀ ts ∈ demoStore.sessions, ts.id ≠ "zzz") ∧
    save_location demoStore 3 true "zzz" 1 1 none
      = (demoStore, ⟨false, some "Invalid tracking session"⟩) :=
  ⟨by decide, C7_append_unknown demoStore 3 true "zzz" 1 1 none (by decide)⟩

theorem sessionUpd_of_status_ne (tid : String) (ts : TrackingSession)
    (h : ts.status ≠ Status.pending) :
    sessionUpd tid ts = ts := by
  simp [sessionUpd, h]

/-- Claim C5: the stored status only moves forward along pending to
active. A session created by `send_tracking_request` under a fresh id
starts `pending`; neither operation ever moves a stored `active` status
back to `pending` (an `active` session stays `active`). -/
theorem C5_status_monotone (s : Store) :
    (∀ (now : Nat) (newId : String) (cfg : SMSConfig) (outcome : DispatchOutcome)
        (sp rp msg : String),
        s.sessions.find? (fun t => t.id == newId) = none →
        sessionStatus (send_tracking_request s now true newId cfg outcome sp rp msg).1 newId
          = some Status.pending) ∧
    (∀ (now : Nat) (commitOk : Bool) (newId : String) (cfg : SMSConfig)
        (outcome : DispatchOutcome) (sp rp msg tid : String),
        sessionStatus s tid = some Status.active →
        sessionStatus (send_tracking_request s now commitOk newId cfg outcome sp rp msg).1 tid
          = some Status.active) ∧
    (∀ (now : Nat) (commitOk : Bool) (tid2 : String) (lat lng : ℚ) (acc : Option ℚ)
        (tid : String),
        sessionStatus s tid = some Status.active →
        sessionStatus (save_location s now commitOk tid2 lat lng acc).1 tid
          = some Status.active) := by
  refine ⟨?_, ?_, ?_⟩
  · intro now newId cfg outcome sp rp msg h
    unfold sessionStatus get_tracking_session
    rw [send_tracking_request_fst]
    show ((s.sessions ++ [mkTrackingSession now newId sp rp msg]).find?
      (fun ts => ts.id == newId)).map (fun ts => ts.status) = some Status.pending
    rw [List.find?_append, h]
    simp [mkTrackingSession]
  · intro now commitOk newId cfg outcome sp rp msg tid h
    cases commitOk with
    | false => exact h
    | true =>
      unfold sessionStatus get_tracking_session at h ⊢
      rw [send_tracking_request_fst]
      show ((s.sessions ++ [mkTrackingSession now newId sp rp msg]).find?
        (fun ts => ts.id == tid)).map (fun ts => ts.status) = some Status.active
      rw [List.find?_append]
      cases hf : s.sessions.find? (fun ts => ts.id == tid) with
      | none => rw [hf] at h; simp at h
      | some ts => rw [hf] at h; simpa using h
  · intro now commitOk tid2 lat lng acc tid h
    unfold sessionStatus get_tracking_session at h ⊢
    cases hf : s.sessions.find? (fun ts => ts.id == tid) with
    | none => rw [hf] at h; simp at h
    | some ts =>
      rw [hf] at h
      have hstat : ts.status = Status.active := by simpa using h
      cases hf2 : s.sessions.find? (fun t => t.id == tid2) with
      | none => rw [save_location_reduce_none s now commitOk tid2 lat lng acc hf2, hf]; exact h
      | some ts0 =>
        cases commitOk with
        | false => rw [save_location_reduce_fail s now tid2 ts0 lat lng acc hf2, hf]; exact h
        | true =>
          rw [save_location_reduce_some s now tid2 ts0 lat lng acc hf2]
          show ((activateFirst tid2 s.sessions).find?
            (fun ts => ts.id == tid)).map (fun ts => ts.status) = some Status.active
          rw [activateFirst_find?, hf]
          simp [sessionUpd_of_status_ne tid2 ts (by simp [hstat]), hstat]

/-- Witness for C5 at concrete stores: a fresh creation starts pending,
and an active session stays active through both operations. -/
theorem C5_status_monotone_witness :
    demoStore2.sessions.find? (fun t => t.id == "C3") = none ∧
    sessionStatus (send_tracking_request demoStore2 4 true "C3" ⟨"u", false⟩
        (DispatchOutcome.failed "e") "a" "b" "m").1 "C3" = some Status.pending ∧
    sessionStatus demoStore2 "B2" = some Status.active ∧
    sessionStatus (send_tracking_request demoStore2 4 true "C3" ⟨"u", false⟩
        (DispatchOutcome.failed "e") "a" "b" "m").1 "B2" = some Status.active ∧
    sessionStatus (save_location demoStore2 4 true "B2" 1 1 none).1 "B2"
      = some Status.active :=
  ⟨by decide,
    (C5_status_monotone demoStore2).1 4 "C3" ⟨"u", false⟩
      (DispatchOutcome.failed "e") "a" "b" "m" (by decide),
    by decide,
    (C5_status_monotone demoStore2).2.1 4 true "C3" ⟨"u", false⟩
      (DispatchOutcome.failed "e") "a" "b" "m" "B2" (by decide),
    (C5_status_monotone demoStore2).2.2 4 true "B2" 1 1 none "B2" (by decide)⟩

/-- Claim C8: a session persisted by `send_tracking_request` has
`expires_at = created_at + 24h` (modelled in seconds), and neither
operation ever changes the stored `created_at` or `expires_at` of any
session. -/
theorem C8_expiry_window (s : Store) :
    (∀ (now : Nat) (newId : String) (cfg : SMSConfig) (outcome : DispatchOutcome)
        (sp rp msg : String),
        s.sessions.find? (fun t => t.id == newId) = none →
        sessionCreatedAt (send_tracking_request s now true newId cfg outcome sp rp msg).1 newId
          = some now ∧
        sessionExpiresAt (send_tracking_request s now true newId cfg outcome sp rp msg).1 newId
          = some (now + 24 * 3600)) ∧
    (∀ (now : Nat) (commitOk : Bool) (newId : String) (cfg : SMSConfig)
        (outcome : DispatchOutcome) (sp rp msg tid : String) (c e : Nat),
        sessionCreatedAt s tid = some c →
        sessionExpiresAt s tid = some e →
        sessionCreatedAt (send_tracking_request s now commitOk newId cfg outcome sp rp msg).1
            tid = some c ∧
        sessionExpiresAt (send_tracking_request s now commitOk newId cfg outcome sp rp msg).1
            tid = some e) ∧
    (∀ (now : Nat) (commitOk : Bool) (tid2 : String) (lat lng : ℚ) (acc : Option ℚ)
        (tid : String) (c e : Nat),
        sessionCreatedAt s tid = some c →
        sessionExpiresAt s tid = some e →
        sessionCreatedAt (save_location s now commitOk tid2 lat lng acc).1 tid = some c ∧
        sessionExpiresAt (save_location s now commitOk tid2 lat lng acc).1 tid = some e) := by
  refine ⟨?_, ?_, ?_⟩
  · intro now newId cfg outcome sp rp msg h
    unfold sessionCreatedAt sessionExpiresAt get_tracking_session
    rw [send_tracking_request_fst]
    constructor
    · show ((s.sessions ++ [mkTrackingSession now newId sp rp msg]).find?
        (fun ts => ts.id == newId)).map (fun ts => ts.created_at) = some now
      rw [List.find?_append, h]
      simp [mkTrackingSession]
    · show ((s.sessions ++ [mkTrackingSession now newId sp rp msg]).find?
        (fun ts => ts.id == newId)).map (fun ts => ts.expires_at) = some (now + 24 * 3600)
      rw [List.find?_append, h]
      simp [mkTrackingSession]
  · intro now commitOk newId cfg outcome sp rp msg tid c e hc he
    cases commitOk with
    | false => exact ⟨hc, he⟩
    | true =>
      unfold sessionCreatedAt get_tracking_session at hc
      unfold sessionExpiresAt get_tracking_session at he
      unfold sessionCreatedAt sessionExpiresAt get_tracking_session
      rw [send_tracking_request_fst]
      cases hf : s.sessions.find? (fun ts => ts.id == tid) with
      | none => rw [hf] at hc; simp at hc
      | some ts =>
        rw [hf] at hc he
        constructor
        · show ((s.sessions ++ [mkTrackingSession now newId sp rp msg]).find?
            (fun ts => ts.id == tid)).map (fun ts => ts.created_at) = some c
          rw [List.find?_append, hf]
          simpa using hc
        · show ((s.sessions ++ [mkTrackingSession now newId sp rp msg]).find?
            (fun ts => ts.id == tid)).map (fun ts => ts.expires_at) = some e
          rw [List.find?_append, hf]
          simpa using he
  · intro now commitOk tid2 lat lng acc tid c e hc he
    unfold sessionCreatedAt get_tracking_session at hc
    unfold sessionExpiresAt get_tracking_session at he
    unfold sessionCreatedAt sessionExpiresAt get_tracking_session
    cases hf : s.sessions.find? (fun ts => ts.id == tid) with
    | none => rw [hf] at hc; simp at hc
    | some ts =>
      rw [hf] at hc he
      cases hf2 : s.sessions.find? (fun t => t.id == tid2) with
      | none =>
        rw [save_location_reduce_none s now commitOk tid2 lat lng acc hf2, hf]
        exact ⟨hc, he⟩
      | some ts0 =>
        cases commitOk with
        | false =>
          rw [save_location_reduce_fail s now tid2 ts0 lat lng acc hf2, hf]
          exact ⟨hc, he⟩
        | true =>
          rw [save_location_reduce_some s now tid2 ts0 lat lng acc hf2]
          constructor
          · show ((activateFirst tid2 s.sessions).find?
              (fun ts => ts.id == tid)).map (fun ts => ts.created_at) = some c
            rw [activateFirst_find?, hf]
            simpa [sessionUpd_created_at] using hc
          · show ((activateFirst tid2 s.sessions).find?
              (fun ts => ts.id == tid)).map (fun ts => ts.expires_at) = some e
            rw [activateFirst_find?, hf]
            simpa [sessionUpd_expires_at] using he

/-- Witness for C8: a concrete creation persists
`expires_at = created_at + 24h`, and a later append leaves both fields of
an existing session unchanged. -/
theorem C8_expiry_window_witness :
    demoStore.sessions.find? (fun t => t.id == "C3") = none ∧
    sessionCreatedAt (send_tracking_request demoStore 11 true "C3" ⟨"u", false⟩
        (DispatchOutcome.failed "e") "a" "b" "m").1 "C3" = some 11 ∧
    sessionExpiresAt (send_tracking_request demoStore 11 true "C3" ⟨"u", false⟩
        (DispatchOutcome.failed "e") "a" "b" "m").1 "C3" = some (11 + 24 * 3600) ∧
    sessionCreatedAt (save_location demoStore 99 true "A1" 1 1 none).1 "A1" = some 0 ∧
    sessionExpiresAt (save_location demoStore 99 true "A1" 1 1 none).1 "A1"
      = some (0 + 24 * 3600) :=
  ⟨by decide,
    ((C8_expiry_window demoStore).1 11 "C3" ⟨"u", false⟩
      (DispatchOutcome.failed "e") "a" "b" "m" (by decide)).1,
    ((C8_expiry_window demoStore).1 11 "C3" ⟨"u", false⟩
      (DispatchOutcome.failed "e") "a" "b" "m" (by decide)).2,
    ((C8_expiry_window demoStore).2.2 99 true "A1" 1 1 none "A1" 0 (0 + 24 * 3600)
      (by decide) (by decide)).1,
    ((C8_expiry_window demoStore).2.2 99 true "A1" 1 1 none "A1" 0 (0 + 24 * 3600)
      (by decide) (by decide)).2⟩

theorem sms_debug_url_none (cfg : SMSConfig) (outcome : DispatchOutcome) (tid : String) :
    (sms_send_tracking_request cfg outcome tid).debug_url = none := by
  cases outcome <;> by_cases h : cfg.is_configured <;>
    simp [sms_send_tracking_request, h]

theorem sms_tracking_url_eq (cfg : SMSConfig) (outcome : DispatchOutcome) (tid : String) :
    (sms_send_tracking_request cfg outcome tid).tracking_url
      = some (buildTrackingUrl cfg.server_url tid) := by
  cases outcome <;> by_cases h : cfg.is_configured <;>
    simp [sms_send_tracking_request, h]

/-- Claim C3, settled as a code bug. When the commit succeeds,
`send_tracking_request` always reports success with the session id even
when SMS dispatch fails (the non-fatal half of the claim holds), but in
the dispatch-failure branch the returned dictionary carries no shareable
link: its `tracking_url` key is absent and its fallback field is
`debug_url = ""`, because line 71 of `src/app.py` reads the key
`debug_url`, which no branch of the SMS service ever sets — the service
put the link under `tracking_url`, shown by the last conjunct. -/
theorem C3_dispatch_failure_drops_link (s : Store) (now : Nat) (newId : String)
    (cfg : SMSConfig) (outcome : DispatchOutcome) (sp rp msg : String)
    (hfail : (sms_send_tracking_request cfg outcome newId).success = false) :
    (send_tracking_request s now true newId cfg outcome sp rp msg).2.success = true ∧
    (send_tracking_request s now true newId cfg outcome sp rp msg).2.tracking_id
      = some newId ∧
    (send_tracking_request s now true newId cfg outcome sp rp msg).2.sms_sent
      = some false ∧
    (send_tracking_request s now true newId cfg outcome sp rp msg).2.debug_url
      = some "" ∧
    (send_tracking_request s now true newId cfg outcome sp rp msg).2.tracking_url
      = none ∧
    (sms_send_tracking_request cfg outcome newId).tracking_url
      = some (buildTrackingUrl cfg.server_url newId) := by
  have hred : (send_tracking_request s now true newId cfg outcome sp rp msg).2
      = { success := true, tracking_id := some newId, tracking_url := none,
          sms_sent := some false,
          error := some ((sms_send_tracking_request cfg outcome newId).error.getD
            "Unknown error"),
          debug_url := some ((sms_send_tracking_request cfg outcome newId).debug_url.getD
            "") } := by
    unfold send_tracking_request
    simp only [if_true]
    rw [if_neg (by simp [mkTrackingSession, hfail])]
    rfl
  rw [hred, sms_debug_url_none]
  exact ⟨rfl, rfl, rfl, rfl, rfl, sms_tracking_url_eq cfg outcome newId⟩

/-- Witness for C3 at a concrete unconfigured service: creation succeeds,
the result carries an empty `debug_url` and no `tracking_url`, while the
SMS result did carry the link. -/
theorem C3_dispatch_failure_drops_link_witness :
    (sms_send_tracking_request ⟨"https://app.example", false⟩
        (DispatchOutcome.failed "boom") "A1").success = false ∧
    (send_tracking_request ⟨[], []⟩ 9 true "A1" ⟨"https://app.example", false⟩
        (DispatchOutcome.failed "boom") "a" "b" "m").2.success = true ∧
    (send_tracking_request ⟨[], []⟩ 9 true "A1" ⟨"https://app.example", false⟩
        (DispatchOutcome.failed "boom") "a" "b" "m").2.debug_url = some "" ∧
    (send_tracking_request ⟨[], []⟩ 9 true "A1" ⟨"https://app.example", false⟩
        (DispatchOutcome.failed "boom") "a" "b" "m").2.tracking_url = none ∧
    (sms_send_tracking_request ⟨"https://app.example", false⟩
        (DispatchOutcome.failed "boom") "A1").tracking_url
      = some "https://app.example/?tracking_id=A1" := by
  have h := C3_dispatch_failure_drops_link ⟨[], []⟩ 9 "A1" ⟨"https://app.example", false⟩
    (DispatchOutcome.failed "boom") "a" "b" "m" (by decide)
  refine ⟨by decide, h.1, h.2.2.2.1, h.2.2.2.2.1, ?_⟩
  rw [h.2.2.2.2.2]
  decide

/-- Claim C4, settled as a code bug. The spec-modelled pure predicate
`isExpired` (now greater than `expires_at`) is false at creation time and
true 25 hours later for every session created by the program; but the only
expiry check the source performs, the stored-status test of
`show_share_location_page`, is false on such a session forever, because no
operation ever writes status `expired` — the link never expires even
though the SMS body promises a 24-hour expiry. -/
theorem C4_expiry_never_enforced (now : Nat) (newId sp rp msg : String) :
    isExpired (mkTrackingSession now newId sp rp msg).created_at
        (mkTrackingSession now newId sp rp msg) = false ∧
    isExpired ((mkTrackingSession now newId sp rp msg).created_at + 25 * 3600)
        (mkTrackingSession now newId sp rp msg) = true ∧
    share_page_rejects_expired (mkTrackingSession now newId sp rp msg) = false := by
  refine ⟨?_, ?_, rfl⟩
  · simp only [isExpired, mkTrackingSession, decide_eq_false_iff_not]
    omega
  · simp only [isExpired, mkTrackingSession, decide_eq_true_eq]
    omega

/-- Claim C10: in every store reachable through the two mutating
operations, every stored session status is `pending` or `active` — the
value `expired` is never written — so the expired branch of the share
page is never taken for a session created by this program. -/
theorem C10_no_stored_expired (s : Store) (hs : Reachable s) :
    ∀ ts ∈ s.sessions, (ts.status = Status.pending ∨ ts.status = Status.active) ∧
      share_page_rejects_expired ts = false := by
  induction hs with
  | empty =>
    intro ts h
    simp at h
  | create s now commitOk newId cfg outcome sp rp msg hprev ih =>
    cases commitOk with
    | false =>
      intro ts h
      exact ih ts h
    | true =>
      intro ts h
      rw [send_tracking_request_fst] at h
      rcases List.mem_append.mp h with h1 | h1
      · exact ih ts h1
      · have he : ts = mkTrackingSession now newId sp rp msg := by simpa using h1
        subst he
        exact ⟨Or.inl rfl, rfl⟩
  | append s now commitOk tid lat lng acc hprev ih =>
    intro ts h
    cases hf : s.sessions.find? (fun t => t.id == tid) with
    | none =>
      rw [save_location_reduce_none s now commitOk tid lat lng acc hf] at h
      exact ih ts h
    | some ts0 =>
      cases commitOk with
      | false =>
        rw [save_location_reduce_fail s now tid ts0 lat lng acc hf] at h
        exact ih ts h
      | true =>
        rw [save_location_reduce_some s now tid ts0 lat lng acc hf] at h
        rcases mem_activateFirst tid s.sessions h with h1 | ⟨ts1, _, _, he⟩
        · exact ih ts h1
        · subst he
          exact ⟨Or.inr rfl, rfl⟩

/-- Witness for C10 at a concrete reachable store: one creation from the
empty store, whose session the share page does not reject. -/
theorem C10_no_stored_expired_witness :
    share_page_rejects_expired (mkTrackingSession 0 "A1" "a" "b" "m") = false :=
  (C10_no_stored_expired _
    (Reachable.create ⟨[], []⟩ 0 true "A1" ⟨"u", false⟩ (DispatchOutcome.failed "e")
      "a" "b" "m" Reachable.empty)
    (mkTrackingSession 0 "A1" "a" "b" "m") (by decide)).2

theorem breakAtChar_snd_append (c : Char) (l1 l2 : List Char) (h : c ∉ l1) :
    (breakAtChar c (l1 ++ l2)).2 = (breakAtChar c l2).2 := by
  induction l1 with
  | nil => rfl
  | cons a t ih =>
    have ha : ¬ a = c := fun he => h (he ▸ List.mem_cons_self a t)
    have ht : c ∉ t := fun hm => h (List.mem_cons_of_mem a hm)
    simp [breakAtChar, ha, ih ht]

theorem splitOnChar_of_not_mem (c : Char) (l : List Char) (h : c ∉ l) :
    splitOnChar c l = [l] := by
  induction l with
  | nil => rfl
  | cons a t ih =>
    have ha : ¬ a = c := fun he => h (he ▸ List.mem_cons_self a t)
    have ht : c ∉ t := fun hm => h (List.mem_cons_of_mem a hm)
    simp [splitOnChar, ih ht, ha]

theorem dropLeading_append (p l : List Char) : dropLeading p (p ++ l) = some l := by
  induction p with
  | nil => rfl
  | cons a t ih => simp [dropLeading, ih]

theorem firstSome_singleton {α β : Type} (f : α → Option β) (a : α) :
    firstSome f [a] = f a := by
  unfold firstSome
  cases f a <;> rfl

/-- Claim C9: the shareable link is exactly
`server_url ++ "/?tracking_id=" ++ session_id` in every branch of the SMS
service, and the recipient surface recovers the same session id by parsing
the `tracking_id` query parameter of that link (for any base URL without a
question mark and any id without an ampersand, the only shapes the
program produces). -/
theorem C9_link_roundtrip :
    (∀ (cfg : SMSConfig) (outcome : DispatchOutcome) (tid : String),
        (sms_send_tracking_request cfg outcome tid).tracking_url
          = some (cfg.server_url ++ "/?tracking_id=" ++ tid)) ∧
    (∀ (u tid : String), '?' ∉ u.data → '&' ∉ tid.data →
        parseTrackingId (buildTrackingUrl u tid) = some tid) := by
  constructor
  · intro cfg outcome tid
    exact sms_tracking_url_eq cfg outcome tid
  · intro u tid hu ht
    unfold parseTrackingId buildTrackingUrl
    have hdata : (u ++ "/?tracking_id=" ++ tid).data
        = u.data ++ ('/' :: '?' :: ("tracking_id=".data ++ tid.data)) := by
      rw [String.data_append, String.data_append]
      rw [List.append_assoc]
      rfl
    rw [hdata]
    have h1 : (breakAtChar '?'
        (u.data ++ ('/' :: '?' :: ("tracking_id=".data ++ tid.data)))).2
        = "tracking_id=".data ++ tid.data := by
      rw [breakAtChar_snd_append '?' u.data _ hu]
      have hslash : ¬ ('/' : Char) = '?' := by decide
      simp [breakAtChar, hslash]
    rw [h1]
    have h2 : splitOnChar '&' ("tracking_id=".data ++ tid.data)
        = ["tracking_id=".data ++ tid.data] := by
      apply splitOnChar_of_not_mem
      intro hm
      rcases List.mem_append.mp hm with hm | hm
      · revert hm
        decide
      · exact ht hm
    rw [h2, firstSome_singleton]
    unfold trackingIdValue
    rw [dropLeading_append]
    rfl

/-- Witness for C9 at a concrete base URL and id: the constructed link and
its parse at a concrete input. -/
theorem C9_link_roundtrip_witness :
    (sms_send_tracking_request ⟨"https://app.example", true⟩
        (DispatchOutcome.delivered "SID") "A1").tracking_url
      = some "https://app.example/?tracking_id=A1" ∧
    ('?' ∉ "https://app.example".data) ∧ ('&' ∉ "abc123".data) ∧
    parseTrackingId (buildTrackingUrl "https://app.example" "abc123")
      = some "abc123" := by
  refine ⟨?_, by decide, by decide,
    C9_link_roundtrip.2 "https://app.example" "abc123" (by decide) (by decide)⟩
  rw [C9_link_roundtrip.1 ⟨"https://app.example", true⟩
    (DispatchOutcome.delivered "SID") "A1"]
  decide

end SafeTrack
